import Mathlib

/-!
Verification of the image-editor hosting server (src/server.js) against its
natural-language specification. The development shallowly embeds the parts of
the server with algorithmic content: the name resolver (GET /:filename), the
database-backed content store and static-link (alias) table, the color-keyed
two-frame GIF exporter, and the editor scene model with its render and layer
mutation commands.
-/

namespace ImageHost

/-! ## Content Store and Alias table

The server keeps two Postgres tables: images (filename UNIQUE, mimetype,
data) and static_links (slug UNIQUE, image_filename nullable). We embed them
as association lists keyed by name, with row order preserved.
-/

abbrev Name := String

/-- A row of the images table: MIME type and byte payload. -/
structure StoredImage where
  mimetype : String
  data : List Nat
deriving DecidableEq, Repr

/-- SELECT by unique key over an association list: the first row whose key
matches, if any. -/
def findRow {β : Type} (t : List (Name × β)) (n : Name) : Option β :=
  match t with
  | [] => none
  | (k, v) :: rest => if k = n then some v else findRow rest n

abbrev ImageTable := List (Name × StoredImage)

/-- static_links rows: slug plus nullable image_filename. The server never
stores an empty-string target (imageFilename is replaced by null when falsy),
so Option models the column faithfully. -/
abbrev LinkTable := List (Name × Option Name)

/-- The shared database state: images table and static_links table. -/
structure DB where
  images : ImageTable
  links : LinkTable
deriving DecidableEq, Repr

/-- The upsert used by /upload, /create-gif and /save-editor:
INSERT INTO images ... ON CONFLICT (filename) DO UPDATE SET mimetype, data.
An existing row is updated in place; otherwise a new row is appended. -/
def putImage : ImageTable → Name → StoredImage → ImageTable
  | [], n, img => [(n, img)]
  | (k, v) :: rest, n, img =>
      if k = n then (n, img) :: rest else (k, v) :: putImage rest n img

/-- SELECT data, mimetype FROM images WHERE filename = n. -/
def getImage (t : ImageTable) (n : Name) : Option StoredImage := findRow t n

/-- The DELETE /delete/:filename handler: DELETE FROM images WHERE
filename = n RETURNING filename; it runs no other query, and reports whether
a row existed. -/
def deleteImage (db : DB) (n : Name) : DB × Bool :=
  ({ images := db.images.filter fun kv => kv.1 ≠ n, links := db.links },
   (findRow db.images n).isSome)

/-! ## Name Resolver (GET /:filename, src/server.js lines 71-120) -/

/-- Outcome of resolving a requested path name. serveAlias carries no-cache
directives in the server; serveDirect carries long-lived cache directives.
reserved means the handler defers to the matching operation route via
next(). There is no failure constructor: the handler never throws on a
dangling alias (its alias query is wrapped in try/catch that falls through). -/
inductive Resolution where
  | reserved : Resolution
  | serveAlias (mimetype : String) (data : List Nat) : Resolution
  | serveDirect (mimetype : String) (data : List Nat) : Resolution
  | notFound : Resolution
deriving DecidableEq, Repr

/-- The skip list at src/server.js line 73, verbatim. -/
def reservedNames : List Name :=
  ["upload", "edit", "delete", "favicon.ico", "gif", "create-gif", "editor",
   "save-editor", "links", "create-link", "update-link", "delete-link"]

/-- The direct-image stage: serve the same-named stored image with long
cache, else fall through to 404. -/
def directLookup (db : DB) (name : Name) : Resolution :=
  match getImage db.images name with
  | some img => Resolution.serveDirect img.mimetype img.data
  | none => Resolution.notFound

/-- The GET /:filename handler. Order: the reserved skip list, then the
static-link (alias) query — served only when the slug row exists, its
image_filename is non-null and the pointed-to image row exists — then the
direct images query, then 404 fall-through. -/
def resolveName (db : DB) (name : Name) : Resolution :=
  if name ∈ reservedNames then Resolution.reserved
  else
    match findRow db.links name with
    | some (some target) =>
        match getImage db.images target with
        | some img => Resolution.serveAlias img.mimetype img.data
        | none => directLookup db name
    | some none => directLookup db name
    | none => directLookup db name

/-! ## Static-link creation (POST /create-link, lines 1785-1800) -/

/-- Character class of the slug regex: lowercase ASCII letter, digit,
underscore or hyphen. -/
def isSlugChar (c : Char) : Bool :=
  (decide ('a' ≤ c) && decide (c ≤ 'z')) ||
  (decide ('0' ≤ c) && decide (c ≤ '9')) ||
  c == '_' || c == '-'

/-- req.body.slug.toLowerCase().replace of every character outside the slug
class by nothing (ASCII model of toLowerCase). -/
def normalizeSlug (s : String) : String :=
  String.mk ((s.data.map Char.toLower).filter isSlugChar)

/-- POST /create-link: normalize the slug, turn a falsy imageFilename into
null, then plain INSERT — the UNIQUE constraint on slug makes a duplicate
slug an error (caught and returned as HTTP 500); there is no other
validation, so an empty normalized slug is inserted as such. -/
def createLink (db : DB) (slugInput imageFilename : String) : Except String DB :=
  let slug := normalizeSlug slugInput
  let target : Option Name := if imageFilename = "" then none else some imageFilename
  if (findRow db.links slug).isSome then
    Except.error "duplicate slug"
  else
    Except.ok { images := db.images, links := db.links ++ [(slug, target)] }

/-! ## Raster pixels and the color-key pass

The /create-gif handler (lines 608-624) and the createGif branch of
/save-editor (lines 1478-1490) obtain a raw RGBA buffer and run the same
per-pixel loop over it. We model the buffer at pixel granularity.
-/

/-- One RGBA pixel; channels range over 0..255. -/
structure Pixel where
  r : Nat
  g : Nat
  b : Nat
  a : Nat
deriving DecidableEq, Repr

/-- The reserved sentinel color: pure magenta at full alpha (magicR = 255,
magicG = 0, magicB = 255, alpha set to 255). -/
def magicColor : Pixel := { r := 255, g := 0, b := 255, a := 255 }

/-- A fully transparent pixel, the state of a freshly created or cleared
canvas. -/
def transparentPixel : Pixel := { r := 0, g := 0, b := 0, a := 0 }

/-- The body of the conversion loop: when the alpha byte is below 128 the
pixel is overwritten by magenta at alpha 255; otherwise the loop leaves the
pixel untouched (all four channels). -/
def colorKeyPixel (p : Pixel) : Pixel :=
  if p.a < 128 then { r := 255, g := 0, b := 255, a := 255 } else p

/-- The whole conversion pass over the flattened buffer. -/
def colorKeyPass (buf : List Pixel) : List Pixel := buf.map colorKeyPixel

/-- The color-key pass as the specification words it, for comparison with
colorKeyPass: below-threshold pixels become the sentinel at full alpha, and
at-or-above-threshold pixels keep their RGB with alpha forced to the
maximum. -/
def specColorKeyPixel (p : Pixel) : Pixel :=
  if p.a < 128 then { r := 255, g := 0, b := 255, a := 255 }
  else { r := p.r, g := p.g, b := p.b, a := 255 }

/-! ## Canvas 2D context and GIF encoder (shallow models of the node-canvas
and gif-encoder-2 collaborators, as driven by lines 626-656) -/

/-- A 2D canvas: dimensions plus the pixel grid. createCanvas yields a fully
transparent canvas. -/
structure Canvas2D where
  width : Nat
  height : Nat
  pixels : List Pixel
deriving DecidableEq, Repr

def createCanvas (w h : Nat) : Canvas2D :=
  { width := w, height := h, pixels := List.replicate (w * h) transparentPixel }

/-- ctx.putImageData of a full-canvas ImageData at the origin: the grid is
replaced by the supplied buffer. -/
def Canvas2D.putImageData (c : Canvas2D) (buf : List Pixel) : Canvas2D :=
  { c with pixels := buf }

/-- ctx.fillRect(0, 0, width, height) with an opaque fillStyle: the whole
grid becomes that color. -/
def Canvas2D.fillRectFull (c : Canvas2D) (col : Pixel) : Canvas2D :=
  { c with pixels := List.replicate (c.width * c.height) col }

/-- The gif-encoder-2 state the server drives: repeat count (-1 means play
once, no loop, per the Netscape extension being omitted), the current frame
delay in milliseconds, quality, the declared transparent color, and the
frames captured so far, each with the delay in force when it was added. -/
structure GIFEncoderState where
  width : Nat
  height : Nat
  repeatCount : Int
  delay : ℚ
  quality : Nat
  transparent : Option Nat
  frames : List (List Pixel × ℚ)
deriving DecidableEq, Repr

def GIFEncoderState.new (w h : Nat) : GIFEncoderState :=
  { width := w, height := h, repeatCount := 0, delay := 0, quality := 10,
    transparent := none, frames := [] }

def GIFEncoderState.setRepeat (e : GIFEncoderState) (r : Int) : GIFEncoderState :=
  { e with repeatCount := r }

def GIFEncoderState.setDelay (e : GIFEncoderState) (d : ℚ) : GIFEncoderState :=
  { e with delay := d }

def GIFEncoderState.setQuality (e : GIFEncoderState) (q : Nat) : GIFEncoderState :=
  { e with quality := q }

def GIFEncoderState.setTransparent (e : GIFEncoderState) (c : Nat) : GIFEncoderState :=
  { e with transparent := some c }

/-- encoder.addFrame(ctx) captures the pixels of the context together with
the delay currently in force. -/
def GIFEncoderState.addFrame (e : GIFEncoderState) (ctx : Canvas2D) : GIFEncoderState :=
  { e with frames := e.frames ++ [(ctx.pixels, e.delay)] }

/-- The GIF export pipeline of /create-gif lines 614-656 (identical in
/save-editor lines 1480-1516): color-key the raw buffer, configure the
encoder (setRepeat(-1), setDelay(duration seconds times 1000), setQuality 10,
setTransparent 0xFF00FF), draw the processed buffer onto a fresh canvas and
add it as frame 1, fill the canvas with magenta, set the delay to 100 ms and
add it as frame 2, then finish. The result is the finished encoder state. -/
def createGifExport (width height : Nat) (rawBuffer : List Pixel) (duration : ℚ) :
    GIFEncoderState :=
  let processedBuffer := colorKeyPass rawBuffer
  let encoder := GIFEncoderState.new width height
  let encoder := encoder.setRepeat (-1)
  let encoder := encoder.setDelay (duration * 1000)
  let encoder := encoder.setQuality 10
  let encoder := encoder.setTransparent 0xFF00FF
  let canvas := createCanvas width height
  let canvas := canvas.putImageData processedBuffer
  let encoder := encoder.addFrame canvas
  let canvas := canvas.fillRectFull magicColor
  let encoder := encoder.setDelay 100
  let encoder := encoder.addFrame canvas
  encoder

/-! ## Editor scene model (the /editor page script, lines 1020-1340)

The editor keeps a canvas size, a background-color toggle and value, and an
ordered list of layers. getScaledCanvas renders the scene at the selected
output scale. Layer resampling and painting are delegated to the 2D context
collaborator, so the render result is embedded as the prepared base grid
(clear, then optional background fill) together with the ordered list of
drawImage operations issued, with the geometry the code computes for each.
-/

/-- An opaque RGB color as read from the background color input. -/
structure RGB where
  r : Nat
  g : Nat
  b : Nat
deriving DecidableEq, Repr

/-- An editor layer: whether layer.img is present and complete, the decoded
natural-size raster, the natural dimensions captured at load time, the
position and the uniform scale factor. -/
structure Layer where
  imgComplete : Bool
  imgPixels : List Pixel
  originalW : Nat
  originalH : Nat
  x : ℚ
  y : ℚ
  scale : ℚ
deriving DecidableEq, Repr

/-- The editor scene: canvas size, background toggle state (the useBgColor
variable and the checkbox it mirrors), background color, and the ordered
layer list (index 0 paints first). -/
structure Scene where
  canvasW : Nat
  canvasH : Nat
  useBgColor : Bool
  bgToggleChecked : Bool
  bgColor : RGB
  layers : List Layer
deriving DecidableEq, Repr

/-- One ctx.drawImage(img, x, y, w, h) call with the geometry computed by
getScaledCanvas. -/
structure DrawOp where
  imgPixels : List Pixel
  x : ℚ
  y : ℚ
  w : ℚ
  h : ℚ
deriving DecidableEq, Repr

/-- The render result: output dimensions, the base grid after the clear and
the optional background fill, and the drawImage calls issued in order. The
function returns only image data; it carries no warning or error channel. -/
structure RenderResult where
  width : Nat
  height : Nat
  base : List Pixel
  ops : List DrawOp
deriving DecidableEq, Repr

/-- getScaledCanvas (lines 1063-1093): read the output scale (parseInt with
fallback 1 on 0/NaN), create a fresh canvas of width times scale by height
times scale, clearRect to transparent, fill with the background color (at
full alpha, fillStyle being an opaque hex color) only when useBgColor and
the checkbox agree, then for each layer in order, only when layer.img is
present and complete, drawImage at (x times scale, y times scale) with size
(originalW times layer scale times scale, originalH times layer scale times
scale). Layers whose raster is absent are skipped with no record. -/
def getScaledCanvas (scene : Scene) (rawScale : Nat) : RenderResult :=
  let scale := if rawScale = 0 then 1 else rawScale
  let W := scene.canvasW * scale
  let H := scene.canvasH * scale
  let cleared := List.replicate (W * H) transparentPixel
  let base :=
    if scene.useBgColor && scene.bgToggleChecked then
      List.replicate (W * H)
        { r := scene.bgColor.r, g := scene.bgColor.g, b := scene.bgColor.b, a := 255 : Pixel }
    else cleared
  let ops := scene.layers.filterMap fun l =>
    if l.imgComplete then
      some { imgPixels := l.imgPixels,
             x := l.x * (scale : ℚ), y := l.y * (scale : ℚ),
             w := (l.originalW : ℚ) * l.scale * (scale : ℚ),
             h := (l.originalH : ℚ) * l.scale * (scale : ℚ) : DrawOp }
    else none
  { width := W, height := H, base := base, ops := ops }

/-! ## Layer scale mutation commands (lines 1233-1250 and 1328-1338) -/

/-- The canvas wheel handler: multiply the selected layer scale by 0.95 or
1.05 depending on scroll direction, then clamp with
Math.max(0.05, Math.min(10, scale)). -/
def wheelResize (l : Layer) (deltaYPositive : Bool) : Layer :=
  let delta : ℚ := if deltaYPositive then 95 / 100 else 105 / 100
  let s := l.scale * delta
  { l with scale := max (5 / 100 : ℚ) (min 10 s) }

/-- updateScale: the slider command sets scale to the slider value divided
by 100; the input element declares min 5 and max 400 but the function itself
performs no clamping. -/
def updateScale (l : Layer) (sliderValue : ℚ) : Layer :=
  { l with scale := sliderValue / 100 }

/-- updateFromSize: parseInt of the width input with fallback to originalW
when the parse yields NaN (none) or 0, then scale := newW / originalW with
no clamping at all. -/
def updateFromSize (l : Layer) (inputW : Option Int) : Layer :=
  let newW : ℚ :=
    match inputW with
    | none => (l.originalW : ℚ)
    | some n => if n = 0 then (l.originalW : ℚ) else (n : ℚ)
  { l with scale := newW / (l.originalW : ℚ) }

/-! ## Concrete instances used by witnesses and counterexamples -/

/-- A database holding a dangling alias: slug points at a.png but the images
table has no such row. -/
def dbDangling : DB :=
  { images := [], links := [("slug", some "a.png")] }

/-- A database holding a stored image whose name is transparent, the name of
the transparent-PNG generator page. -/
def dbShadow : DB :=
  { images := [("transparent", { mimetype := "image/png", data := [137, 80] })],
    links := [] }

/-- The empty database. -/
def db0 : DB := { images := [], links := [] }

/-- A two-pixel buffer: one below the alpha threshold, one above it but not
fully opaque. -/
def cbuf : List Pixel :=
  [{ r := 1, g := 2, b := 3, a := 50 }, { r := 10, g := 20, b := 30, a := 200 }]

/-- A one-pixel raw buffer for the export witness. -/
def wbuf : List Pixel := [{ r := 1, g := 2, b := 3, a := 200 }]

/-- A concrete layer with a 100 by 100 natural raster at scale 1. -/
def l0 : Layer :=
  { imgComplete := true, imgPixels := [], originalW := 100, originalH := 100,
    x := 0, y := 0, scale := 1 }

/-- A layer whose cached raster is absent (img missing or not complete). -/
def brokenLayer : Layer :=
  { imgComplete := false, imgPixels := [], originalW := 50, originalH := 50,
    x := 0, y := 0, scale := 1 }

/-- A layer whose raster is present and complete. -/
def goodLayer : Layer :=
  { imgComplete := true, imgPixels := [magicColor], originalW := 4, originalH := 5,
    x := 2, y := 3, scale := 1 }

/-- A 2 by 3 scene with an opaque background enabled and no layers. -/
def sc6 : Scene :=
  { canvasW := 2, canvasH := 3, useBgColor := true, bgToggleChecked := true,
    bgColor := { r := 9, g := 8, b := 7 }, layers := [] }

/-- A base scene for the layer-skip claims. -/
def sc8 : Scene :=
  { canvasW := 10, canvasH := 10, useBgColor := false, bgToggleChecked := false,
    bgColor := { r := 0, g := 0, b := 0 }, layers := [] }

/-- sc8 with one absent-raster layer. -/
def sceneBroken : Scene := { sc8 with layers := [brokenLayer] }

/-- sc8 with no layers at all. -/
def sceneEmpty : Scene := { sc8 with layers := [] }

/-! ## Helper lemmas -/

/-- Deleting every row keyed n from an association list makes a lookup of n
come back empty. -/
theorem findRow_filter_ne (t : ImageTable) (n : Name) :
    findRow (t.filter fun kv => kv.1 ≠ n) n = none := by
  induction t with
  | nil => rfl
  | cons kv rest ih =>
      by_cases h : kv.1 = n
      · simpa [List.filter_cons, h] using ih
      · simpa [List.filter_cons, h, findRow] using ih

/-! ## Claim theorems -/

/-- C1: for every request name matching an existing alias whose target
pointer is null or whose pointed-to name has no row in the images table,
resolution falls through to the direct-image stage, which serves a
same-named direct image when one exists and otherwise yields not-found; the
resolver is a total function into a result type with no failure
constructor, so no hard failure can arise. -/
theorem c1_dangling_alias_falls_through (db : DB) (name : Name)
    (hres : name ∉ reservedNames)
    (hdangling : findRow db.links name = some none ∨
      ∃ t, findRow db.links name = some (some t) ∧ getImage db.images t = none) :
    resolveName db name = directLookup db name ∧
    directLookup db name =
      (match getImage db.images name with
       | some img => Resolution.serveDirect img.mimetype img.data
       | none => Resolution.notFound) := by
  refine ⟨?_, rfl⟩
  unfold resolveName
  rw [if_neg hres]
  rcases hdangling with h | ⟨t, ht, himg⟩
  · rw [h]
  · rw [ht]
    simp [himg]

/-- C1 witness: a concrete database with a dangling alias named slug. -/
theorem c1_witness :
    resolveName dbDangling "slug" = directLookup dbDangling "slug" ∧
    directLookup dbDangling "slug" =
      (match getImage dbDangling.images "slug" with
       | some img => Resolution.serveDirect img.mimetype img.data
       | none => Resolution.notFound) :=
  c1_dangling_alias_falls_through dbDangling "slug" (by decide)
    (Or.inr ⟨"a.png", by decide, by decide⟩)

/-- C4 counterexample: the name transparent belongs to the transparent-PNG
generator page, yet it is absent from the skip list, so with a stored image
of that name the resolver serves the image rather than yielding reserved. -/
theorem c4_counterexample :
    resolveName dbShadow "transparent" =
      Resolution.serveDirect "image/png" [137, 80] ∧
    resolveName dbShadow "transparent" ≠ Resolution.reserved := by
  constructor
  · rfl
  · decide

/-- C4 amended: the reserved set the resolver checks first, with first-match
precedence over aliases and stored images, is exactly the twelve names of
the skip list (upload, edit, delete, favicon.ico, gif, create-gif, editor,
save-editor, links, create-link, update-link, delete-link); the
transparent-PNG generator is not among them, so its page can be shadowed by
a same-named image. For every name in the skip list the resolver yields
reserved regardless of database contents. -/
theorem c4_reserved_precedence (db : DB) (name : Name)
    (h : name ∈ reservedNames) :
    resolveName db name = Resolution.reserved := by
  unfold resolveName
  rw [if_pos h]

/-- C4 witness: the name upload is reserved even when an alias and an image
of that name exist. -/
theorem c4_witness :
    "upload" ∈ reservedNames ∧
    resolveName { images := [("upload", { mimetype := "image/png", data := [1] })],
                  links := [("upload", some "a.png")] } "upload" =
      Resolution.reserved :=
  ⟨by decide,
   c4_reserved_precedence
     { images := [("upload", { mimetype := "image/png", data := [1] })],
       links := [("upload", some "a.png")] } "upload" (by decide)⟩

/-- C5: the upsert of the images table followed immediately by a lookup of
the same name returns exactly the stored MIME type and byte payload. -/
theorem c5_put_get_roundtrip (t : ImageTable) (n : Name) (img : StoredImage) :
    getImage (putImage t n img) n = some img := by
  induction t with
  | nil => simp [putImage, getImage, findRow]
  | cons kv rest ih =>
      unfold putImage
      by_cases h : kv.1 = n
      · simp [h, getImage, findRow]
      · simpa [h, getImage, findRow] using ih

/-- C9: the delete handler runs a single DELETE against the images table, so
the static-link table is left unchanged row for row — an alias pointing at
the deleted name is neither removed nor nulled, leaving a dangling pointer —
while the image row itself is gone afterwards. -/
theorem c9_delete_preserves_aliases (db : DB) (n : Name) :
    (deleteImage db n).1.links = db.links ∧
    getImage (deleteImage db n).1.images n = none :=
  ⟨rfl, findRow_filter_ne db.images n⟩

/-- C10: whenever the normalized slug is not already taken, create-link
succeeds and stores exactly the normalized slug — the input lowercased with
every character outside lowercase letters, digits, underscore and hyphen
removed — together with the nullable target; no validation rejects an empty
normalization. -/
theorem c10_create_link_normalizes (db : DB) (s f : String)
    (hfree : findRow db.links (normalizeSlug s) = none) :
    createLink db s f =
      Except.ok { images := db.images,
                  links := db.links ++
                    [(normalizeSlug s, if f = "" then none else some f)] } := by
  unfold createLink
  simp [hfree]

/-- C10 witness: an input consisting only of characters outside the slug
class normalizes to the empty string and is still inserted, not rejected. -/
theorem c10_witness :
    findRow db0.links (normalizeSlug "!!!") = none ∧
    createLink db0 "!!!" "" =
      Except.ok { images := db0.images,
                  links := db0.links ++
                    [(normalizeSlug "!!!", if "" = "" then none else some "")] } ∧
    normalizeSlug "!!!" = "" :=
  ⟨by decide, c10_create_link_normalizes db0 "!!!" "" (by decide), by decide⟩

/-- C2 counterexample: at a pixel with alpha 200 — at or above the 128
threshold but not fully opaque — the conversion loop differs from the
claimed transform: it leaves the pixel entirely untouched, so the alpha 200
survives the pass instead of being forced to 255. -/
theorem c2_counterexample :
    colorKeyPixel { r := 10, g := 20, b := 30, a := 200 } ≠
      specColorKeyPixel { r := 10, g := 20, b := 30, a := 200 } ∧
    colorKeyPass [{ r := 10, g := 20, b := 30, a := 200 }] =
      [{ r := 10, g := 20, b := 30, a := 200 }] := by
  constructor
  · decide
  · rfl

/-- C2 amended: the pass preserves buffer length, and pixel for pixel, a
pixel whose alpha is below 128 is rewritten to the sentinel magenta at full
alpha, while a pixel at or above the threshold is left entirely unchanged —
including its alpha, so alphas in 128..254 remain partially translucent
after the pass. -/
theorem c2_color_key_pointwise (buf : List Pixel) (i : Nat)
    (h1 : i < buf.length) (h2 : i < (colorKeyPass buf).length) :
    (colorKeyPass buf).length = buf.length ∧
    (colorKeyPass buf).get ⟨i, h2⟩ =
      (if (buf.get ⟨i, h1⟩).a < 128 then magicColor else buf.get ⟨i, h1⟩) := by
  constructor
  · simp [colorKeyPass]
  · simp [colorKeyPass, colorKeyPixel, magicColor]

/-- C2 witness: the pointwise description evaluated at index 1 of a concrete
two-pixel buffer. -/
theorem c2_witness :
    (colorKeyPass cbuf).length = cbuf.length ∧
    (colorKeyPass cbuf).get ⟨1, by decide⟩ =
      (if (cbuf.get ⟨1, by decide⟩).a < 128 then magicColor
       else cbuf.get ⟨1, by decide⟩) :=
  c2_color_key_pointwise cbuf 1 (by decide) (by decide)

/-- C3: for every raw buffer and positive show duration, the finished
encoder state holds exactly two frames — frame 1 the color-keyed buffer at a
delay of the duration in seconds times 1000 milliseconds, frame 2 the canvas
uniformly filled with the sentinel magenta at the fixed 100 millisecond
delay — with the sentinel color declared transparent and the repeat count
set to -1, play once with no loop. -/
theorem c3_two_frame_single_play (w h : Nat) (buf : List Pixel) (d : ℚ)
    (hd : 0 < d) :
    (createGifExport w h buf d).frames =
      [(colorKeyPass buf, d * 1000),
       (List.replicate (w * h) magicColor, 100)] ∧
    (createGifExport w h buf d).frames.length = 2 ∧
    (createGifExport w h buf d).repeatCount = -1 ∧
    (createGifExport w h buf d).transparent = some 0xFF00FF :=
  ⟨rfl, rfl, rfl, rfl⟩

/-- C3 witness: the export evaluated on a one-pixel buffer with a 2.5 second
show duration. -/
theorem c3_witness :
    (0 : ℚ) < 5 / 2 ∧
    ((createGifExport 1 1 wbuf (5 / 2)).frames =
      [(colorKeyPass wbuf, (5 / 2) * 1000),
       (List.replicate (1 * 1) magicColor, 100)] ∧
     (createGifExport 1 1 wbuf (5 / 2)).frames.length = 2 ∧
     (createGifExport 1 1 wbuf (5 / 2)).repeatCount = -1 ∧
     (createGifExport 1 1 wbuf (5 / 2)).transparent = some 0xFF00FF) :=
  ⟨by norm_num, c3_two_frame_single_play 1 1 wbuf (5 / 2) (by norm_num)⟩

/-- C6: for every scene with zero layers and the opaque background enabled,
and every nonzero output scale, the render result has dimensions canvas
width times scale by canvas height times scale, issues no draw operation,
and its buffer is uniformly the background color at full alpha. -/
theorem c6_render_uniform_background (scene : Scene) (rawScale : Nat)
    (hs : rawScale ≠ 0) (hl : scene.layers = [])
    (hbg : scene.useBgColor = true) (hck : scene.bgToggleChecked = true) :
    (getScaledCanvas scene rawScale).width = scene.canvasW * rawScale ∧
    (getScaledCanvas scene rawScale).height = scene.canvasH * rawScale ∧
    (getScaledCanvas scene rawScale).ops = [] ∧
    (getScaledCanvas scene rawScale).base =
      List.replicate (scene.canvasW * rawScale * (scene.canvasH * rawScale))
        { r := scene.bgColor.r, g := scene.bgColor.g, b := scene.bgColor.b,
          a := 255 : Pixel } := by
  unfold getScaledCanvas
  simp [hs, hl, hbg, hck]

/-- C6 witness: a 2 by 3 scene with background color (9, 8, 7) rendered at
scale 2. -/
theorem c6_witness :
    (getScaledCanvas sc6 2).width = sc6.canvasW * 2 ∧
    (getScaledCanvas sc6 2).height = sc6.canvasH * 2 ∧
    (getScaledCanvas sc6 2).ops = [] ∧
    (getScaledCanvas sc6 2).base =
      List.replicate (sc6.canvasW * 2 * (sc6.canvasH * 2))
        { r := sc6.bgColor.r, g := sc6.bgColor.g, b := sc6.bgColor.b,
          a := 255 : Pixel } :=
  c6_render_uniform_background sc6 2 (by decide) rfl rfl rfl

/-- C7 counterexample: the width size input command performs no clamping:
on a layer of natural width 100 at scale 1, entering width 1 sets scale to
1/100, strictly below the safe lower bound 0.05. -/
theorem c7_counterexample :
    (updateFromSize l0 (some 1)).scale = 1 / 100 ∧
    ¬ (5 / 100 : ℚ) ≤ (updateFromSize l0 (some 1)).scale := by
  constructor
  · norm_num [updateFromSize, l0]
  · norm_num [updateFromSize, l0]

/-- C7 amended: the scroll-resize command clamps scale into [0.05, 10] on
every input, and the slider command keeps scale within [0.05, 10] whenever
the slider value respects the HTML bounds 5..400 of its input element; the
width/height size input command performs no clamping and can leave the
range. -/
theorem c7_scale_clamping (l : Layer) (down : Bool) (v : ℚ)
    (h5 : 5 ≤ v) (h400 : v ≤ 400) :
    ((5 / 100 : ℚ) ≤ (wheelResize l down).scale ∧
      (wheelResize l down).scale ≤ 10) ∧
    ((5 / 100 : ℚ) ≤ (updateScale l v).scale ∧
      (updateScale l v).scale ≤ 10) := by
  refine ⟨⟨le_max_left _ _, ?_⟩, ?_, ?_⟩
  · exact max_le (by norm_num) (min_le_left _ _)
  · show (5 / 100 : ℚ) ≤ v / 100
    linarith
  · show (v / 100 : ℚ) ≤ 10
    linarith

/-- C7 witness: the clamped commands evaluated on the concrete layer with a
scroll-down step and slider value 100. -/
theorem c7_witness :
    (5 : ℚ) ≤ 100 ∧ (100 : ℚ) ≤ 400 ∧
    (((5 / 100 : ℚ) ≤ (wheelResize l0 true).scale ∧
       (wheelResize l0 true).scale ≤ 10) ∧
     ((5 / 100 : ℚ) ≤ (updateScale l0 100).scale ∧
       (updateScale l0 100).scale ≤ 10)) :=
  ⟨by norm_num, by norm_num, c7_scale_clamping l0 true 100 (by norm_num) (by norm_num)⟩

/-- C8 counterexample: rendering a scene holding one absent-raster layer
yields a result identical to rendering the scene with that layer removed:
the render result is only the image data, so no warning list is surfaced to
the caller, contrary to the claim. -/
theorem c8_counterexample :
    getScaledCanvas sceneBroken 1 = getScaledCanvas sceneEmpty 1 := rfl

/-- C8 amended: a layer whose cached raster is absent is skipped while all
other layers produce exactly the draw operations they would produce without
it — the render result, which carries no warning channel, is unchanged by
removing the broken layer, so the skip is silent rather than surfaced. -/
theorem c8_skip_is_silent (scene : Scene) (pre post : List Layer) (l : Layer)
    (s : Nat) (h : l.imgComplete = false) :
    getScaledCanvas { scene with layers := pre ++ l :: post } s =
      getScaledCanvas { scene with layers := pre ++ post } s := by
  unfold getScaledCanvas
  simp [List.filterMap_append, h]

/-- C8 witness: a broken layer between a good layer and the empty tail. -/
theorem c8_witness :
    brokenLayer.imgComplete = false ∧
    getScaledCanvas { sc8 with layers := [goodLayer] ++ brokenLayer :: [] } 1 =
      getScaledCanvas { sc8 with layers := [goodLayer] ++ [] } 1 :=
  ⟨rfl, c8_skip_is_silent sc8 [goodLayer] [] brokenLayer 1 rfl⟩

end ImageHost
